import Mathlib

/-!
Verification development for `manage_opencode_projects.py`, a launcher script
that parses a small command line (`--root <path>`, `--bun <path>`, and a
remainder of pass-through arguments), resolves the `bun` runtime executable,
builds a fixed child-command vector and spawns it from the script's own
directory, propagating the child's exit code.

The embedding models POSIX pure paths (`pathlib.PurePosixPath`) as a flag for
absoluteness plus a list of components, the CPython `argparse` behaviour of
the specific parser built by `parse_args` (options `--help` and `-h`, `--root`,
`--bun`, and a `nargs=REMAINDER` positional), and the process environment
(home directory, `shutil.which` result, spawned child) as explicit parameters.
-/

/-- Split a character list at the first occurrence of `c`: returns the part
before it and, if `c` occurs, the part after it (Python `str.split(c, 1)`). -/
def splitFirst (c : Char) : List Char → List Char × Option (List Char)
  | [] => ([], none)
  | x :: xs =>
    if x = c then ([], some xs)
    else
      let r := splitFirst c xs
      (x :: r.1, r.2)

/-- Split a character list on every occurrence of `c` (Python `str.split(c)`):
always returns at least one (possibly empty) piece. -/
def splitOnChar (c : Char) : List Char → List (List Char)
  | [] => [[]]
  | x :: xs =>
    match splitOnChar c xs with
    | [] => [[]]
    | h :: t => if x = c then [] :: h :: t else (x :: h) :: t

/-- Model of `pathlib.PurePosixPath`: whether the path is anchored at the
filesystem root, plus the list of name components. Parsing a string drops
empty components and single dots, as `pathlib` does. -/
structure PyPath where
  absolute : Bool
  parts : List String
deriving DecidableEq

/-- Model of the `Path(s)` constructor on a POSIX string: the path is absolute
iff the string starts with a slash, and the components are the slash-separated
pieces with empty pieces and `.` pieces dropped. -/
def pathOfString (s : String) : PyPath :=
  { absolute := match s.data with
      | c :: _ => c = ('/')
      | [] => false
    parts := ((splitOnChar ('/') s.data).filter
        (fun p => !(p == []) && !(p == [('.')]))).map String.mk }

/-- Model of `str(p)` on a `pathlib` POSIX path: components joined by slashes,
with a leading slash when absolute; the empty relative path renders as `.`
and the bare root as `/`. -/
def pyStr (p : PyPath) : String :=
  match p.parts with
  | [] => if p.absolute then ("/") else (".")
  | _ :: _ =>
    String.mk ((if p.absolute then [('/')] else []) ++
      List.intercalate [('/')] (p.parts.map String.data))

/-- Model of `Path.expanduser` for the bare `~` form: a relative path whose
first component is exactly `~` is re-anchored at the home directory. Python
additionally resolves `~user` components through the system user database;
those forms depend on state outside this model and are left unchanged here. -/
def expanduser (home : PyPath) (p : PyPath) : PyPath :=
  match p.absolute, p.parts with
  | false, t :: rest =>
    if t = ("~") then { absolute := home.absolute, parts := home.parts ++ rest }
    else p
  | _, _ => p

/-- Model of the module constant `DEFAULT_ROOT = Path.home() / ".local" /
"share" / "opencode"`, with the home directory as an explicit parameter. -/
def DEFAULT_ROOT (home : PyPath) : PyPath :=
  { absolute := home.absolute, parts := home.parts ++ [(".local"), ("share"), ("opencode")] }

/-- Whether a rendered POSIX path string denotes an absolute path. -/
def isAbsStr (s : String) : Bool :=
  match s.data with
  | c :: _ => c == ('/')
  | [] => false

/-- The three option destinations of the launcher's argument parser. -/
inductive OptName
  | help
  | root
  | bun
deriving DecidableEq

/-- Classification of a single command-line token by `argparse`
(`_parse_optional`): a known option (possibly with an inline `=`-argument),
an ambiguous abbreviation, an unrecognized option-like token, or a plain
positional token. -/
inductive TokClass
  | opt (o : OptName) (explicitArg : Option String)
  | ambiguous
  | unknown
  | positional
deriving DecidableEq

/-- The option strings registered on the parser, for abbreviation matching. -/
def knownLongOpts : List (OptName × List Char) :=
  [(OptName.help, ("--help").data), (OptName.root, ("--root").data),
    (OptName.bun, ("--bun").data)]

/-- Exact match of a token against the parser's registered option strings. -/
def exactOpt (l : List Char) : Option OptName :=
  if l = ("--help").data then some OptName.help
  else if l = ("--root").data then some OptName.root
  else if l = ("--bun").data then some OptName.bun
  else if l = ("-h").data then some OptName.help
  else none

/-- Model of the `argparse` negative-number test `^-\d+$|^-\d*\.\d+$`: since
this parser has no digit-like option strings, such tokens are positionals. -/
def negNumber (l : List Char) : Bool :=
  match l with
  | c :: rest =>
    if c = ('-') then
      (decide (rest ≠ []) && rest.all Char.isDigit) ||
        (match splitFirst ('.') rest with
         | (ipart, some fpart) =>
           ipart.all Char.isDigit && decide (fpart ≠ []) && fpart.all Char.isDigit
         | (_, none) => false)
    else false
  | [] => false

/-- Final classification steps of `_parse_optional` for a token that matched
no known option: negative numbers and tokens containing a space are treated
as positionals; everything else is an unrecognized option. -/
def classifyFallback (l : List Char) : TokClass :=
  if negNumber l then TokClass.positional
  else if l.contains (' ') then TokClass.positional
  else TokClass.unknown

/-- Resolution of the chained single-dash re-parsing that `consume_optional`
applies when the help option carries a leftover inline argument: each
character of the leftover must itself name the zero-argument `-h` option for
the chain to succeed as a bare help invocation; an empty leftover or any
character other than `h` fails with the `ignored explicit argument` usage
error before the help action fires. -/
def shortHelpChain (arg : List Char) : TokClass :=
  if arg ≠ [] ∧ arg.all (fun c => c == ('h')) then TokClass.opt OptName.help none
  else TokClass.opt OptName.help (some (String.mk arg))

/-- Prefix matching of `_get_option_tuples` for this parser, combined with
the chained single-dash re-parsing that `consume_optional` applies to the
leftover tail of a short option: a double-dash token may abbreviate a
registered long option (ambiguous when several match); a single-dash token
starting with `-h` whose tail consists only of further `h` characters is a
chain of zero-argument help options and acts as a bare help invocation,
while any other character in the tail makes the chain fail with the
`ignored explicit argument` usage error before the help action can fire
(the help action takes no argument, so a leftover tail is never a value). -/
def classifyByPrefix (l : List Char) (name : List Char) (exp : Option (List Char)) :
    TokClass :=
  match l with
  | c1 :: c2 :: _ =>
    if c1 = ('-') ∧ c2 = ('-') then
      match knownLongOpts.filter (fun p => name.isPrefixOf p.2) with
      | [p] => TokClass.opt p.1 (exp.map String.mk)
      | _ :: _ :: _ => TokClass.ambiguous
      | [] => classifyFallback l
    else
      if c1 = ('-') ∧ c2 = ('h') then shortHelpChain (l.drop 2)
      else classifyFallback l
  | _ => classifyFallback l

/-- Model of `argparse._parse_optional` for this parser, combined with the
per-token outcome of `consume_optional` for help options that carry an
inline argument: empty tokens, tokens not starting with `-`, and the bare
`-` are positionals; then exact option match, `=`-split exact match (the
single-dash `-h=...` form going through the short-option chain), prefix
matching, and the fallback tests, in the order CPython applies them. -/
def classify (t : String) : TokClass :=
  match t.data with
  | [] => TokClass.positional
  | c :: cs =>
    if c ≠ ('-') then TokClass.positional
    else
      match exactOpt (c :: cs) with
      | some o => TokClass.opt o none
      | none =>
        if cs = [] then TokClass.positional
        else
          let ne := splitFirst ('=') (c :: cs)
          match ne.2 with
          | some arg =>
            match exactOpt ne.1 with
            | some o =>
              if ne.1 = ("-h").data then shortHelpChain arg
              else TokClass.opt o (some (String.mk arg))
            | none => classifyByPrefix (c :: cs) ne.1 ne.2
          | none => classifyByPrefix (c :: cs) ne.1 ne.2

deriving instance DecidableEq for Except

/-- The namespace produced by `parse_args`: the metadata root (defaulted to
`DEFAULT_ROOT`), the optional explicit bun path, and the remainder list. -/
structure ArgNS where
  root : PyPath
  bun : Option PyPath
  tui_args : List String
deriving DecidableEq

/-- The two ways the parser can terminate the process: a usage error
(`SystemExit(2)`) or the help action (`SystemExit(0)`). -/
inductive ParseExit
  | usage
  | help
deriving DecidableEq

/-- Store a parsed option value into the namespace, through the `type=Path`
conversion that `argparse` applies to `--root` and `--bun`. -/
def setOpt (ns : ArgNS) (o : OptName) (v : String) : ArgNS :=
  match o with
  | OptName.root => { ns with root := pathOfString v }
  | OptName.bun => { ns with bun := some (pathOfString v) }
  | OptName.help => ns

/-- Model of the `argparse` consumption loop (`_parse_known_args`) for this
parser. Tokens are consumed left to right: a first bare `--` or any
positional token starts the `REMAINDER` capture, which swallows everything
from that token on (including the `--` itself and any option-like tokens);
an unrecognized option is collected and reported as a usage error at the
end; a known value-taking option consumes exactly the next token as its
value, and that token must be classified positional: for optional actions
the single-argument pattern forbids both the bare `--` and option-like
tokens, so either in value position is the `expected one argument` usage
error. A token resolving to a bare help invocation exits through the help
action; a help option with a leftover inline argument is a usage error. -/
def parseLoop (ns : ArgNS) (extras : List String) : List String → Except ParseExit ArgNS
  | [] => if extras = [] then Except.ok ns else Except.error ParseExit.usage
  | t :: rest =>
    if t = ("--") then
      if extras = [] then Except.ok { ns with tui_args := t :: rest }
      else Except.error ParseExit.usage
    else
      match classify t with
      | TokClass.ambiguous => Except.error ParseExit.usage
      | TokClass.positional =>
        if extras = [] then Except.ok { ns with tui_args := t :: rest }
        else Except.error ParseExit.usage
      | TokClass.unknown => parseLoop ns (extras ++ [t]) rest
      | TokClass.opt OptName.help none => Except.error ParseExit.help
      | TokClass.opt OptName.help (some _) => Except.error ParseExit.usage
      | TokClass.opt o (some v) => parseLoop (setOpt ns o v) extras rest
      | TokClass.opt o none =>
        match rest with
        | [] => Except.error ParseExit.usage
        | v :: rest' =>
          if v = ("--") then Except.error ParseExit.usage
          else
            match classify v with
            | TokClass.positional => parseLoop (setOpt ns o v) extras rest'
            | _ => Except.error ParseExit.usage

/-- Model of `parse_args`: `argparse` first classifies every token before the
first bare `--` (an ambiguous abbreviation aborts with a usage error already
in that phase), then runs the consumption loop starting from the defaulted
namespace. The home directory is a parameter of the model because the
default root is derived from `Path.home()`. -/
def parse_args (home : PyPath) (argv : List String) : Except ParseExit ArgNS :=
  if (argv.takeWhile (fun t => !(t == ("--")))).any
      (fun t => classify t == TokClass.ambiguous) then
    Except.error ParseExit.usage
  else
    parseLoop { root := DEFAULT_ROOT home, bun := none, tui_args := [] } [] argv

/-- The message of the `SystemExit` raised by `find_bun` when `bun` is
neither given explicitly nor found on the search path. -/
def bunErrMsg : String :=
  "bun executable not found. Please install Bun to run the TUI."

/-- Model of `find_bun`: an explicit path is used verbatim (stringified);
otherwise the result of `shutil.which` decides, and its absence raises
`SystemExit`. The `which` lookup is an explicit parameter of the model. -/
def find_bun (explicit : Option PyPath) (which_bun : Option String) :
    Except String String :=
  match explicit with
  | some p => Except.ok (pyStr p)
  | none =>
    match which_bun with
    | some b => Except.ok b
    | none => Except.error bunErrMsg

/-- Model of the pass-through normalization at the top of `launch_tui`: drop
the first element when it is exactly the bare separator `--`. -/
def stripSep (extra_args : List String) : List String :=
  match extra_args with
  | [] => []
  | t :: rest => if t = ("--") then rest else t :: rest

/-- Model of the command vector built by `launch_tui`: the bun executable,
the fixed `run tui` subcommand, a separator, `--root` with the
user-expanded root, then the normalized pass-through arguments. -/
def buildCmd (bun_exe : String) (home : PyPath) (root : PyPath)
    (extra_args : List String) : List String :=
  let ea := stripSep extra_args
  let cmd := [bun_exe, ("run"), ("tui"), ("--"), ("--root"), pyStr (expanduser home root)]
  if ea = [] then cmd else cmd ++ ea

/-- A child-process invocation: the argument vector and the working directory
passed to `subprocess.run`. -/
structure SpawnSpec where
  cmd : List String
  cwd : String
deriving DecidableEq

/-- The invocation `launch_tui` hands to `subprocess.run`: the built command
vector, with the working directory fixed to `PROJECT_DIR` (the directory
containing the launcher script, an explicit parameter of the model). -/
def launchSpec (home : PyPath) (projectDir : String) (root : PyPath)
    (bun_exe : String) (extra_args : List String) : SpawnSpec :=
  { cmd := buildCmd bun_exe home root extra_args, cwd := projectDir }

/-- Model of `launch_tui`: run the child synchronously and return its exit
code. The child is modelled as a function from the invocation to the exit
code it eventually returns. -/
def launch_tui (home : PyPath) (projectDir : String) (child : SpawnSpec → Int)
    (root : PyPath) (bun_exe : String) (extra_args : List String) : Int :=
  child (launchSpec home projectDir root bun_exe extra_args)

/-- Observable outcome of running the launcher: the help exit (code 0), a
usage error (code 2), the `SystemExit` for a missing bun executable (code 1),
or a spawned child whose exit code is propagated. -/
inductive MainOutcome
  | helpExit
  | usageExit
  | bunNotFound
  | spawned (spec : SpawnSpec) (code : Int)
deriving DecidableEq

/-- The process exit code of each outcome (`SystemExit` with a string message
exits with code 1; `argparse` usage errors exit with code 2; help exits 0;
a spawned child's code is returned by `main` and passed to `sys.exit`). -/
def exitCode : MainOutcome → Int
  | MainOutcome.helpExit => 0
  | MainOutcome.usageExit => 2
  | MainOutcome.bunNotFound => 1
  | MainOutcome.spawned _ c => c

/-- Model of `main` (plus the `sys.exit(main())` entry point): parse, resolve
the bun executable, and launch the TUI, recording the spawned invocation
and the child's exit code. -/
def mainFn (home : PyPath) (projectDir : String) (which_bun : Option String)
    (child : SpawnSpec → Int) (argv : List String) : MainOutcome :=
  match parse_args home argv with
  | Except.error ParseExit.help => MainOutcome.helpExit
  | Except.error ParseExit.usage => MainOutcome.usageExit
  | Except.ok ns =>
    match find_bun ns.bun which_bun with
    | Except.error _ => MainOutcome.bunNotFound
    | Except.ok exe =>
      MainOutcome.spawned (launchSpec home projectDir ns.root exe ns.tui_args)
        (launch_tui home projectDir child ns.root exe ns.tui_args)

/-- A concrete home directory used by the closed witness statements. -/
def home0 : PyPath := { absolute := true, parts := [("home"), ("user")] }

lemma buildCmd_eq_append (bun_exe : String) (home root : PyPath) (extra : List String) :
    buildCmd bun_exe home root extra =
      [bun_exe, ("run"), ("tui"), ("--"), ("--root"), pyStr (expanduser home root)] ++
        stripSep extra := by
  unfold buildCmd
  by_cases h : stripSep extra = []
  · simp [h]
  · simp [h]

/-- Claim C1, counterexample: for the supplied root path `foo`, the child
argument vector contains `--root` immediately followed by `foo`, which is a
relative path, not the absolute form the claim requires: `Path.expanduser`
expands a leading `~` but never absolutizes a plain relative path. -/
theorem C1_relative_root_cx :
    buildCmd ("bun") home0 (pathOfString ("foo")) [] =
      [("bun"), ("run"), ("tui"), ("--"), ("--root"), ("foo")]
    ∧ isAbsStr ("foo") = false
    ∧ (expanduser home0 (pathOfString ("foo"))).absolute = false := by
  decide

/-- Claim C1 as amended: the child argument vector contains `--root`
immediately followed by the home-expanded (`expanduser`) form of the supplied
path; that form is absolute whenever the supplied path is absolute or begins
with the `~` shorthand (the home directory being absolute), but an ordinary
relative path is forwarded unchanged and remains relative. The domain
hypothesis `hdom` keeps roots whose first component is a `~user` form (which
the model does not resolve) out of scope. -/
theorem C1_root_argument (home : PyPath) (exe : String) (root : PyPath)
    (extra : List String)
    (hhome : home.absolute = true)
    (hdom : ∀ s, root.parts.head? = some s → s.data.head? = some ('~') → s = ("~")) :
    (buildCmd exe home root extra).get? 4 = some ("--root")
    ∧ (buildCmd exe home root extra).get? 5 = some (pyStr (expanduser home root))
    ∧ ((root.absolute = true ∨ root.parts.head? = some ("~")) →
        (expanduser home root).absolute = true) := by
  refine ⟨?_, ?_, ?_⟩
  · rw [buildCmd_eq_append]; rfl
  · rw [buildCmd_eq_append]; rfl
  · intro h
    rcases root with ⟨ab, ps⟩
    cases ab
    · rcases h with habs | hhd
      · exact absurd habs (by simp)
      · cases ps with
        | nil => simp at hhd
        | cons p ps' =>
          simp at hhd
          subst hhd
          simp [expanduser, hhome]
    · simp [expanduser]

/-- Closed witness for the amended C1 at a concrete input: home `/home/user`,
root `~/docs`, no pass-through arguments. -/
theorem C1_root_argument_witness :
    (buildCmd ("bun") home0 (pathOfString ("~/docs")) []).get? 4 = some ("--root")
    ∧ (buildCmd ("bun") home0 (pathOfString ("~/docs")) []).get? 5 =
        some (pyStr (expanduser home0 (pathOfString ("~/docs"))))
    ∧ (((pathOfString ("~/docs")).absolute = true
          ∨ (pathOfString ("~/docs")).parts.head? = some ("~")) →
        (expanduser home0 (pathOfString ("~/docs"))).absolute = true) :=
  C1_root_argument home0 ("bun") (pathOfString ("~/docs")) [] rfl
    (by intro s hs _; injection hs with h; exact h.symm)

/-- Claim C4: the pass-through normalization strips exactly one leading bare
`--` and nothing else. The trailing arguments of the built command (the part
after the six fixed tokens) are `["--help"]` for input `["--", "--help"]`,
are `["foo", "bar"]` unchanged for input `["foo", "bar"]`, keep the second of
two leading separators, and forward any list whose head is not `--` (hence
any mid-list separator) unchanged and in order. -/
theorem C4_strip_one_separator (exe : String) (home rt : PyPath) :
    (buildCmd exe home rt [("--"), ("--help")]).drop 6 = [("--help")]
    ∧ (buildCmd exe home rt [("foo"), ("bar")]).drop 6 = [("foo"), ("bar")]
    ∧ (∀ rest : List String,
        (buildCmd exe home rt (("--") :: ("--") :: rest)).drop 6 = ("--") :: rest)
    ∧ (∀ (t : String) (rest : List String), t ≠ ("--") →
        (buildCmd exe home rt (t :: rest)).drop 6 = t :: rest) := by
  refine ⟨?_, ?_, ?_, ?_⟩
  · rw [buildCmd_eq_append]; rfl
  · rw [buildCmd_eq_append]; rfl
  · intro rest
    rw [buildCmd_eq_append]
    show stripSep (("--") :: ("--") :: rest) = ("--") :: rest
    simp [stripSep]
  · intro t rest ht
    rw [buildCmd_eq_append]
    show stripSep (t :: rest) = t :: rest
    simp [stripSep, ht]

/-- Closed witness for C4: a mid-list separator in `["x", "--", "y"]` is
forwarded as-is because the head is not the bare separator. -/
theorem C4_strip_one_separator_witness :
    (buildCmd ("bun") home0 (pathOfString ("/r")) [("x"), ("--"), ("y")]).drop 6 =
      [("x"), ("--"), ("y")] :=
  (C4_strip_one_separator ("bun") home0 (pathOfString ("/r"))).2.2.2 ("x")
    [("--"), ("y")] (by decide)

/-- Claim C5: when an explicit bun path is supplied, `find_bun` returns that
path (stringified) for every state of the executable search path: the `which`
result never enters the computation and no existence check is made. -/
theorem C5_explicit_bun_verbatim (p : PyPath) (which_bun : Option String) :
    find_bun (some p) which_bun = Except.ok (pyStr p) := rfl

/-- Claim C6: for every input, the constructed child command is exactly the
runtime executable, the fixed `run` and `tui` tokens, the `--` separator,
`--root` with the expanded root path, and then the normalized pass-through
arguments, in that order. -/
theorem C6_command_layout (exe : String) (home root : PyPath) (extra : List String) :
    buildCmd exe home root extra =
      [exe, ("run"), ("tui"), ("--"), ("--root"), pyStr (expanduser home root)] ++
        stripSep extra :=
  buildCmd_eq_append exe home root extra

lemma parseLoop_extras_stuck : ∀ (ns : ArgNS) (extras tokens : List String),
    extras ≠ [] → (∀ t ∈ tokens, classify t ≠ TokClass.opt OptName.help none) →
    parseLoop ns extras tokens = Except.error ParseExit.usage := by
  intro ns extras tokens
  induction ns, extras, tokens using parseLoop.induct <;> intro hne hnh <;>
    simp_all [parseLoop]

/-- Claim C7, counterexample: `--bad` is an unrecognized option-like token,
yet on the command line `foo --bad -- x` it appears before the literal `--`
and the parse succeeds, silently forwarding it: the `REMAINDER` positional
starts capturing at the first positional token (`foo`) and swallows
everything after it, flags included. -/
theorem C7_swallowed_unknown_flag_cx :
    classify ("--bad") = TokClass.unknown
    ∧ parse_args home0 [("foo"), ("--bad"), ("--"), ("x")] =
        Except.ok { root := DEFAULT_ROOT home0, bun := none, tui_args := [("foo"), ("--bad"), ("--"), ("x")] } := by
  exact ⟨by decide, by decide⟩

/-- Claim C7 as amended: an unknown flag causes a usage error when it is
encountered before remainder capture begins, i.e. while the parser is still
consuming options (here: when it heads the command line; a help flag among
the later tokens would instead trigger the help exit, which the hypothesis
excludes); an unknown flag appearing after the first positional token is
captured into the remainder and forwarded as-is. -/
theorem C7_unknown_flag_usage_error (home : PyPath) (bad : String)
    (rest : List String)
    (hu : classify bad = TokClass.unknown)
    (hnh : ∀ t ∈ rest, classify t ≠ TokClass.opt OptName.help none) :
    parse_args home (bad :: rest) = Except.error ParseExit.usage := by
  unfold parse_args
  split
  · rfl
  · have hb : bad ≠ ("--") := by
      intro h
      rw [h] at hu
      exact absurd hu (by decide)
    simp only [parseLoop, hu, if_neg hb]
    exact parseLoop_extras_stuck _ _ _ (by simp) hnh

/-- Closed witness for the amended C7: the lone unknown flag `--bad` makes
the parse fail with a usage error. -/
theorem C7_unknown_flag_usage_error_witness :
    parse_args home0 [("--bad")] = Except.error ParseExit.usage :=
  C7_unknown_flag_usage_error home0 ("--bad") [] (by decide) (by simp)

/-- Claim C2: whenever the child process is spawned, the launcher's exit code
equals the child's exit code unchanged, for every child function and hence
every possible child exit code. -/
theorem C2_exit_code_propagation (home : PyPath) (pd : String)
    (which_bun : Option String) (child : SpawnSpec → Int) (argv : List String)
    (spec : SpawnSpec) (c : Int)
    (h : mainFn home pd which_bun child argv = MainOutcome.spawned spec c) :
    exitCode (mainFn home pd which_bun child argv) = child spec := by
  rcases hpa : parse_args home argv with e | ns
  · cases e <;> simp_all [mainFn]
  · rcases hfb : find_bun ns.bun which_bun with m | exe
    · simp_all [mainFn]
    · simp only [mainFn, hpa, hfb] at h ⊢
      rw [MainOutcome.spawned.injEq] at h
      obtain ⟨h1, h2⟩ := h
      subst h1
      subst h2
      rfl

/-- Closed witness for C2: with bun given explicitly and a child that exits
with code 3, the launcher's exit code is 3. -/
theorem C2_exit_code_propagation_witness :
    exitCode (mainFn home0 ("/opt") (some ("/usr/bin/bun")) (fun _ => (3 : Int)) []) =
      (3 : Int) :=
  C2_exit_code_propagation home0 ("/opt") (some ("/usr/bin/bun"))
    (fun _ => (3 : Int)) []
    (launchSpec home0 ("/opt") (DEFAULT_ROOT home0) ("/usr/bin/bun") []) 3 rfl

/-- Claim C3: when `--bun` is omitted from a successfully parsed command line
and no `bun` executable exists on the search path, the launcher terminates
through the `SystemExit` abort with exit code 1, and the outcome records that
no child process was spawned. -/
theorem C3_missing_bun_aborts (home : PyPath) (pd : String)
    (child : SpawnSpec → Int) (argv : List String) (ns : ArgNS)
    (hp : parse_args home argv = Except.ok ns) (hb : ns.bun = none) :
    mainFn home pd none child argv = MainOutcome.bunNotFound
    ∧ exitCode (mainFn home pd none child argv) = 1 := by
  have hmain : mainFn home pd none child argv = MainOutcome.bunNotFound := by
    simp only [mainFn, hp]
    simp [find_bun, hb]
  exact ⟨hmain, by rw [hmain]; rfl⟩

/-- Closed witness for C3: the empty command line parses with no `--bun`, and
with `which` finding nothing the launcher aborts with exit code 1. -/
theorem C3_missing_bun_aborts_witness :
    mainFn home0 ("/opt") none (fun _ => (0 : Int)) [] = MainOutcome.bunNotFound
    ∧ exitCode (mainFn home0 ("/opt") none (fun _ => (0 : Int)) []) = 1 :=
  C3_missing_bun_aborts home0 ("/opt") (fun _ => (0 : Int)) []
    { root := DEFAULT_ROOT home0, bun := none, tui_args := [] } rfl rfl

/-- Claim C8: whenever a child process is spawned, its working directory is
the launcher's own install directory (`PROJECT_DIR`), for every combination
of root, bun and pass-through arguments, and the recorded exit code is the
one returned by that single, synchronously awaited child. -/
theorem C8_spawn_cwd_project_dir (home : PyPath) (pd : String)
    (which_bun : Option String) (child : SpawnSpec → Int) (argv : List String)
    (spec : SpawnSpec) (c : Int)
    (h : mainFn home pd which_bun child argv = MainOutcome.spawned spec c) :
    spec.cwd = pd ∧ c = child spec := by
  rcases hpa : parse_args home argv with e | ns
  · cases e <;> simp_all [mainFn]
  · rcases hfb : find_bun ns.bun which_bun with m | exe
    · simp_all [mainFn]
    · simp only [mainFn, hpa, hfb] at h
      rw [MainOutcome.spawned.injEq] at h
      obtain ⟨h1, h2⟩ := h
      subst h1
      subst h2
      exact ⟨rfl, rfl⟩

/-- Closed witness for C8 at a concrete spawn. -/
theorem C8_spawn_cwd_project_dir_witness :
    (launchSpec home0 ("/opt") (DEFAULT_ROOT home0) ("/b") []).cwd = ("/opt")
    ∧ (7 : Int) = (fun _ => (7 : Int)) (launchSpec home0 ("/opt") (DEFAULT_ROOT home0) ("/b") []) :=
  C8_spawn_cwd_project_dir home0 ("/opt") (some ("/b")) (fun _ => (7 : Int)) []
    (launchSpec home0 ("/opt") (DEFAULT_ROOT home0) ("/b") []) 7 rfl

/-- Claim C9: after a successful parse, the launcher's only fatal branch of
its own is the failed executable lookup: whenever `find_bun` resolves an
executable (in particular for any explicit `--bun` path, which is never
checked for existence), `mainFn` reaches the spawn step; and conversely the
abort outcome occurs only when no explicit bun was given and the search-path
lookup found nothing. -/
theorem C9_single_fatal_branch (home : PyPath) (pd : String)
    (which_bun : Option String) (child : SpawnSpec → Int) (argv : List String) :
    (∀ ns exe, parse_args home argv = Except.ok ns →
      find_bun ns.bun which_bun = Except.ok exe →
      mainFn home pd which_bun child argv =
        MainOutcome.spawned (launchSpec home pd ns.root exe ns.tui_args)
          (child (launchSpec home pd ns.root exe ns.tui_args)))
    ∧ (mainFn home pd which_bun child argv = MainOutcome.bunNotFound →
        ∃ ns, parse_args home argv = Except.ok ns ∧ ns.bun = none ∧ which_bun = none) := by
  constructor
  · intro ns exe hp hf
    simp only [mainFn, hp, hf]
    rfl
  · intro h
    rcases hpa : parse_args home argv with e | ns
    · cases e <;> simp_all [mainFn]
    · refine ⟨ns, rfl, ?_⟩
      rcases hbun : ns.bun with _ | p
      · rcases hw : which_bun with _ | b
        · exact ⟨rfl, rfl⟩
        · rw [mainFn, hpa] at h
          simp only [find_bun, hbun, hw] at h
          exact absurd h (by simp)
      · rw [mainFn, hpa] at h
        simp only [find_bun, hbun] at h
        exact absurd h (by simp)

/-- Closed witness for C9: an explicit `--bun /x/bun` that names no real file
still reaches the spawn step, with an empty search path. -/
theorem C9_single_fatal_branch_witness :
    mainFn home0 ("/opt") none (fun _ => (0 : Int)) [("--bun"), ("/x/bun")] =
      MainOutcome.spawned (launchSpec home0 ("/opt") (DEFAULT_ROOT home0) ("/x/bun") [])
        ((fun _ => (0 : Int)) (launchSpec home0 ("/opt") (DEFAULT_ROOT home0) ("/x/bun") [])) :=
  (C9_single_fatal_branch home0 ("/opt") none (fun _ => (0 : Int))
      [("--bun"), ("/x/bun")]).1
    { root := DEFAULT_ROOT home0, bun := some (pathOfString ("/x/bun")), tui_args := [] }
    ("/x/bun") rfl rfl

/-- Claim C10: the spawned invocation (command vector and working directory)
is a deterministic pure function of the resolved executable string, the root
path and the pass-through list: with the per-process environment (home
directory and install directory) fixed, equal inputs yield identical
invocations, and nothing else enters the computation. -/
theorem C10_spawn_deterministic (home : PyPath) (pd : String)
    (exe exe' : String) (root root' : PyPath) (extra extra' : List String)
    (h1 : exe = exe') (h2 : root = root') (h3 : extra = extra') :
    launchSpec home pd root exe extra = launchSpec home pd root' exe' extra' := by
  subst h1
  subst h2
  subst h3
  rfl

/-- Closed witness for C10 at concrete equal inputs. -/
theorem C10_spawn_deterministic_witness :
    launchSpec home0 ("/opt") (pathOfString ("/r")) ("bun") [("a")] =
      launchSpec home0 ("/opt") (pathOfString ("/r")) ("bun") [("a")] :=
  C10_spawn_deterministic home0 ("/opt") ("bun") ("bun") (pathOfString ("/r"))
    (pathOfString ("/r")) [("a")] [("a")] rfl rfl rfl
